import Mathlib

/-!
Verification of the LBO calculation engine of `lbo-risk-analyzer`.

Money amounts and rates are embedded as rationals (the source uses Python
floats; all of its arithmetic except one real-valued power is field
arithmetic, which we model exactly over `ℚ`).  The revenue-CAGR metric uses
a real power `(end/start) ** (1/n)`, so the metrics / exit / engine layer
is modelled over `ℝ` with `Real.rpow`.
-/

namespace LBO

/-- Input record of `CapitalStructureInputs` (src/models/capital_structure.py). -/
structure CapitalStructureInputs where
  entry_ebitda : ℚ
  entry_multiple : ℚ
  debt_to_ebitda : ℚ
  transaction_fee_pct : ℚ
  financing_fee_pct : ℚ
  cash_on_bs : ℚ
deriving DecidableEq, Repr

/-- Output record of `CapitalStructure._calculate`. -/
structure CSResults where
  enterprise_value : ℚ
  debt : ℚ
  equity : ℚ
  transaction_fees : ℚ
  financing_fees : ℚ
  cash_on_bs : ℚ
  total_uses : ℚ
  total_sources : ℚ
  debt_to_ev : ℚ
  equity_to_ev : ℚ
deriving DecidableEq, Repr

/-- Embedding of `CapitalStructure._calculate` (src/models/capital_structure.py, lines 31-67). -/
def CapitalStructure.calculate (inputs : CapitalStructureInputs) : CSResults :=
  let ev := inputs.entry_ebitda * inputs.entry_multiple
  let debt := inputs.entry_ebitda * inputs.debt_to_ebitda
  let transaction_fees := ev * inputs.transaction_fee_pct
  let financing_fees := debt * inputs.financing_fee_pct
  let total_uses := ev + transaction_fees + financing_fees
  let equity := total_uses - debt - inputs.cash_on_bs
  { enterprise_value := ev
    debt := debt
    equity := equity
    transaction_fees := transaction_fees
    financing_fees := financing_fees
    cash_on_bs := inputs.cash_on_bs
    total_uses := total_uses
    total_sources := debt + equity + inputs.cash_on_bs
    debt_to_ev := if ev > 0 then debt / ev else 0
    equity_to_ev := if ev > 0 then equity / ev else 0 }

/-- Input record of `OperatingAssumptions` (src/models/operating_model.py). -/
structure OperatingAssumptions where
  base_revenue : ℚ
  revenue_growth_rates : List ℚ
  ebitda_margin : ℚ
  tax_rate : ℚ
  da_pct_revenue : ℚ
  capex_pct_revenue : ℚ
  nwc_pct_revenue : ℚ
deriving DecidableEq, Repr

/-- One row of the operating projection table built by
`OperatingModel._build_projection`. -/
structure OperatingRow where
  year : ℕ
  revenue : ℚ
  ebitda : ℚ
  da : ℚ
  ebit : ℚ
  taxes : ℚ
  nopat : ℚ
  capex : ℚ
  nwc : ℚ
  change_in_nwc : ℚ
  fcf : ℚ
deriving DecidableEq, Repr

/-- Loop body of `OperatingModel._build_projection` (lines 66-111): threads the
previous revenue and previous NWC level through the years. -/
def projectRows (oa : OperatingAssumptions) :
    List ℚ → ℚ → ℚ → ℕ → List OperatingRow
  | [], _, _, _ => []
  | g :: gs, prev_rev, prev_nwc, yr =>
    let revenue := prev_rev * (1 + g)
    let ebitda := revenue * oa.ebitda_margin
    let da := revenue * oa.da_pct_revenue
    let ebit := ebitda - da
    let taxes := max 0 (ebit * oa.tax_rate)
    let nopat := ebit - taxes
    let capex := revenue * oa.capex_pct_revenue
    let nwc := revenue * oa.nwc_pct_revenue
    let change_in_nwc := nwc - prev_nwc
    let fcf := nopat + da - capex - change_in_nwc
    { year := yr, revenue := revenue, ebitda := ebitda, da := da, ebit := ebit
      taxes := taxes, nopat := nopat, capex := capex, nwc := nwc
      change_in_nwc := change_in_nwc, fcf := fcf } ::
      projectRows oa gs revenue nwc (yr + 1)

/-- Embedding of `OperatingModel._build_projection` (src/models/operating_model.py,
lines 40-113).  Year-0 NWC is `base_revenue * nwc_pct_revenue`. -/
def OperatingModel.build_projection (oa : OperatingAssumptions) : List OperatingRow :=
  projectRows oa oa.revenue_growth_rates oa.base_revenue
    (oa.base_revenue * oa.nwc_pct_revenue) 1

/-- Input record of `DebtAssumptions` (debt_model.py). -/
structure DebtAssumptions where
  initial_debt : ℚ
  interest_rate : ℚ
  amortization_pct : ℚ
  cash_sweep_enabled : Bool
  cash_sweep_pct : ℚ
deriving DecidableEq, Repr

/-- One row of the debt schedule built by `DebtModel._build_schedule`. -/
structure DebtRow where
  year : ℕ
  beginning_debt : ℚ
  interest : ℚ
  scheduled_amort : ℚ
  cash_sweep : ℚ
  total_paydown : ℚ
  ending_debt : ℚ
deriving DecidableEq, Repr

/-- One iteration of the loop of `DebtModel._build_schedule` (debt_model.py,
lines 66-94): from the year's FCF and the running balance, compute interest,
scheduled amortization (capped at the balance), the optional cash sweep
(applied after interest and scheduled amortization, capped by what is left),
and the floored ending balance.  `amt` is the fixed scheduled-amortization
amount `initial_debt * amortization_pct` computed once before the loop
(line 64). -/
def debtStep (da : DebtAssumptions) (amt fcf balance : ℚ) (yr : ℕ) : DebtRow :=
  let interest := balance * da.interest_rate
  let scheduled_amort := min amt balance
  let cash_sweep :=
    if da.cash_sweep_enabled = true ∧ 0 < fcf then
      min (max 0 ((fcf - interest) * da.cash_sweep_pct)) (balance - scheduled_amort)
    else 0
  let total_paydown := scheduled_amort + cash_sweep
  { year := yr, beginning_debt := balance, interest := interest
    scheduled_amort := scheduled_amort, cash_sweep := cash_sweep
    total_paydown := total_paydown, ending_debt := max 0 (balance - total_paydown) }

/-- The loop of `DebtModel._build_schedule`: threads the running debt balance
(each year starts from the previous year's ending balance). -/
def buildRows (da : DebtAssumptions) (amt : ℚ) :
    List ℚ → ℚ → ℕ → List DebtRow
  | [], _, _ => []
  | fcf :: rest, balance, yr =>
    let row := debtStep da amt fcf balance yr
    row :: buildRows da amt rest row.ending_debt (yr + 1)

/-- Embedding of `DebtModel._build_schedule` (debt_model.py, lines 44-96). -/
def DebtModel.build_schedule (da : DebtAssumptions) (fcf_series : List ℚ) :
    List DebtRow :=
  buildRows da (da.initial_debt * da.amortization_pct) fcf_series
    da.initial_debt 1

/-- Default row used with `List.getD` when indexing debt schedules. -/
def dfltDebtRow : DebtRow := ⟨0, 0, 0, 0, 0, 0, 0⟩

/-- One row of the table returned by `DebtModel.get_leverage_ratios`. -/
structure LeverageRow where
  year : ℕ
  beginning_debt : ℚ
  ebitda : ℚ
  debt_to_ebitda : ℚ
  interest_coverage : ℚ
deriving DecidableEq, Repr

/-- Embedding of `DebtModel.get_leverage_ratios` (debt_model.py, lines 110-129): joins the
schedule with the EBITDA series; `debt_to_ebitda` uses the beginning balance
and the interest-coverage divisor replaces an exactly-zero interest by 1. -/
def DebtModel.get_leverage_ratios (da : DebtAssumptions) (fcf_series : List ℚ)
    (ebitda_series : List ℚ) : List LeverageRow :=
  ((DebtModel.build_schedule da fcf_series).zip ebitda_series).map fun p =>
    let r := p.1
    let e := p.2
    let divisor : ℚ := if r.interest = 0 then 1 else r.interest
    { year := r.year
      beginning_debt := r.beginning_debt
      ebitda := e
      debt_to_ebitda := r.beginning_debt / e
      interest_coverage := e / divisor }

/-- The `revenue_cagr` entry of `OperatingModel.get_metrics_summary`
(src/models/operating_model.py, line 137):
`(revenue.iloc[-1] / revenue.iloc[0]) ** (1 / len(proj)) - 1`, a real power.
The source applies it unconditionally, with no guard on a non-positive start
value or a projection of fewer than two periods. -/
noncomputable def revenueCagr (revs : List ℚ) : ℝ :=
  (((revs.getLastD 0 / revs.headD 0 : ℚ) : ℝ) ^ ((1 : ℝ) / (revs.length : ℝ))) - 1

/-- The `revenue_cagr` metric of the projection built from `oa`, as read by
`LBOEngine._run_model` via `operating.get_metrics_summary()['revenue_cagr']`. -/
noncomputable def OperatingModel.metrics_revenue_cagr (oa : OperatingAssumptions) : ℝ :=
  revenueCagr ((OperatingModel.build_projection oa).map (·.revenue))

/-- Embedding of `OperatingModel.get_fcf_series` (src/models/operating_model.py,
lines 123-125). -/
def OperatingModel.get_fcf_series (oa : OperatingAssumptions) : List ℚ :=
  (OperatingModel.build_projection oa).map (·.fcf)

/-- Embedding of `OperatingModel.get_final_ebitda` (src/models/operating_model.py,
lines 119-121): last-year EBITDA (`iloc[-1]`, modelled with a 0 default on
the empty projection on which the source raises). -/
def OperatingModel.get_final_ebitda (oa : OperatingAssumptions) : ℚ :=
  ((OperatingModel.build_projection oa).map (·.ebitda)).getLastD 0

/-- Embedding of `DebtModel.get_final_debt` (debt_model.py, lines 102-104): last-year
ending debt (`iloc[-1]`, modelled with a 0 default on the empty schedule on
which the source raises). -/
def DebtModel.get_final_debt (da : DebtAssumptions) (fcf_series : List ℚ) : ℚ :=
  ((DebtModel.build_schedule da fcf_series).map (·.ending_debt)).getLastD 0

/-- The three exit methodologies of `ExitMode` (exit_model.py, line 9). -/
inductive ExitMode where
  | fixed
  | mean_reversion
  | growth_adjusted
deriving DecidableEq, Repr

/-- Input record of `ExitAssumptions` (exit_model.py).  `revenue_cagr` is real
because the engine overwrites it with the real-valued CAGR metric. -/
structure ExitAssumptions where
  exit_mode : ExitMode
  fixed_exit_multiple : ℚ
  entry_multiple : ℚ
  industry_multiple : ℚ
  hold_period : ℕ
  revenue_cagr : ℝ
  growth_multiple_factor : ℚ

/-- Embedding of `ExitModel._calculate_exit_multiple` (exit_model.py, lines 38-73). -/
noncomputable def ExitModel.calculate_exit_multiple (ea : ExitAssumptions) : ℝ :=
  match ea.exit_mode with
  | ExitMode.fixed => (ea.fixed_exit_multiple : ℝ)
  | ExitMode.mean_reversion =>
      (ea.entry_multiple : ℝ) +
        ((ea.industry_multiple : ℝ) - (ea.entry_multiple : ℝ)) * 1
  | ExitMode.growth_adjusted =>
      max 5 ((ea.entry_multiple : ℝ) +
        (ea.revenue_cagr * 100 - 5) * (ea.growth_multiple_factor : ℝ))

/-- Output record of `ExitModel.calculate_exit_value` (exit_model.py,
lines 75-95). -/
structure ExitResults where
  exit_ebitda : ℝ
  exit_multiple : ℝ
  exit_ev : ℝ
  exit_debt : ℝ
  exit_equity_value : ℝ

/-- Embedding of `ExitModel.calculate_exit_value` (exit_model.py, lines 75-95). -/
noncomputable def ExitModel.calculate_exit_value (ea : ExitAssumptions)
    (final_ebitda final_debt : ℝ) : ExitResults :=
  let m := ExitModel.calculate_exit_multiple ea
  { exit_ebitda := final_ebitda
    exit_multiple := m
    exit_ev := final_ebitda * m
    exit_debt := final_debt
    exit_equity_value := final_ebitda * m - final_debt }

/-- The slice of `LBOEngine._run_model`'s result bundle the claims are about,
together with the post-run states of the two caller-supplied assumption
records the method assigns to (`debt_assumptions.initial_debt` on line 70 and
`exit_assumptions.revenue_cagr` on line 84 of src/models/lbo_engine.py).
The IRR column (a numeric Newton solve) is not modelled. -/
structure RunResult where
  sources_uses : CSResults
  debt_schedule : List DebtRow
  exit_results : ExitResults
  equity_invested : ℚ
  exit_equity_value : ℝ
  moic : ℝ
  debt_assumptions : DebtAssumptions
  exit_assumptions : ExitAssumptions

/-- Embedding of `LBOEngine._run_model` (src/models/lbo_engine.py, lines 52-121), by
explicit state passing for the two mutated assumption records.  `iloc[-1]`
accesses are modelled with `getLastD` (the source raises on an empty
projection; the claims below only concern non-empty ones). -/
noncomputable def LBOEngine.run (ci : CapitalStructureInputs)
    (oa : OperatingAssumptions) (da : DebtAssumptions) (ea : ExitAssumptions) :
    RunResult :=
  let sources_uses := CapitalStructure.calculate ci
  let fcf_series := OperatingModel.get_fcf_series oa
  let da2 := { da with initial_debt := sources_uses.debt }
  let debt_schedule := DebtModel.build_schedule da2 fcf_series
  let final_ebitda := OperatingModel.get_final_ebitda oa
  let final_debt := DebtModel.get_final_debt da2 fcf_series
  let ea2 := { ea with revenue_cagr := OperatingModel.metrics_revenue_cagr oa }
  let exit_results :=
    ExitModel.calculate_exit_value ea2 (final_ebitda : ℝ) (final_debt : ℝ)
  let equity_invested := sources_uses.equity
  let exit_equity := exit_results.exit_equity_value
  let moic : ℝ :=
    if 0 < equity_invested then exit_equity / (equity_invested : ℝ) else 0
  { sources_uses := sources_uses
    debt_schedule := debt_schedule
    exit_results := exit_results
    equity_invested := equity_invested
    exit_equity_value := exit_equity
    moic := moic
    debt_assumptions := da2
    exit_assumptions := ea2 }

/-- One row of the table built by `build_sensitivity_grid`
(src/models/lbo_engine.py, lines 228-233); the IRR column is not modelled. -/
structure GridCell where
  growth_rate : ℚ
  exit_multiple : ℚ
  moic : ℝ

/-- Scenario operating assumptions for a grid cell (lines 197-205): the base
assumptions with the growth rate applied uniformly across all years. -/
def gridOperating (oa : OperatingAssumptions) (growth : ℚ) : OperatingAssumptions :=
  { oa with revenue_growth_rates :=
      List.replicate oa.revenue_growth_rates.length growth }

/-- Scenario exit assumptions for a grid cell (lines 207-212): mode forced to
`fixed` with the cell's multiple; the remaining fields take the
`ExitAssumptions` dataclass defaults (industry 10.0, cagr 0.0, factor 0.5). -/
def gridExit (ea : ExitAssumptions) (exit_mult : ℚ) : ExitAssumptions :=
  { exit_mode := ExitMode.fixed
    fixed_exit_multiple := exit_mult
    entry_multiple := ea.entry_multiple
    industry_multiple := 10
    hold_period := ea.hold_period
    revenue_cagr := 0
    growth_multiple_factor := 1 / 2 }

/-- Loop body of `build_sensitivity_grid` (lines 194-233): every cell reruns
the engine; the engine mutates the shared `base_debt_assumptions` record, so
its state is threaded from one cell to the next. -/
noncomputable def gridLoop (ci : CapitalStructureInputs)
    (oa : OperatingAssumptions) (ea : ExitAssumptions) :
    List (ℚ × ℚ) → DebtAssumptions → List GridCell
  | [], _ => []
  | (g, m) :: rest, da =>
    let r := LBOEngine.run ci (gridOperating oa g) da (gridExit ea m)
    { growth_rate := g, exit_multiple := m, moic := r.moic } ::
      gridLoop ci oa ea rest r.debt_assumptions

/-- Embedding of `build_sensitivity_grid` (src/models/lbo_engine.py, lines 173-235):
iterates growth-major over the two ranges. -/
noncomputable def build_sensitivity_grid (ci : CapitalStructureInputs)
    (oa : OperatingAssumptions) (da : DebtAssumptions) (ea : ExitAssumptions)
    (growth_range exit_multiple_range : List ℚ) : List GridCell :=
  gridLoop ci oa ea
    (growth_range.flatMap fun g => exit_multiple_range.map fun m => (g, m)) da

/-- Modelled from the spec: the spec's stated MOIC policy — "MOIC =
exit_equity_value ÷ equity_invested (equity_invested must be > 0 or MOIC is
undefined)", with the undefined case "represented as an explicit missing
value (nullable)".  Used only to compare against the engine's actual MOIC. -/
noncomputable def moicSpec (exit_equity : ℝ) (equity_invested : ℚ) : Option ℝ :=
  if 0 < equity_invested then some (exit_equity / (equity_invested : ℝ)) else none

/-! ## Example inputs (the spec's concrete base-case scenario) -/

/-- Base-case capital-structure inputs: EBITDA 27, 10.0x entry, 5.0x leverage,
2% transaction fee, 3% financing fee, no cash. -/
def ciBase : CapitalStructureInputs :=
  { entry_ebitda := 27, entry_multiple := 10, debt_to_ebitda := 5
    transaction_fee_pct := 2/100, financing_fee_pct := 3/100, cash_on_bs := 0 }

end LBO

namespace LBO

/-- Claim C3: for every valid capital-structure input (entry EBITDA > 0,
entry multiple ≥ 1, debt-to-EBITDA ≥ 0, non-negative fee rates and cash),
`CapitalStructure._calculate` satisfies
debt + equity + cash_on_bs = EV + transaction fees + financing fees, with
EV = EBITDA × multiple, debt = EBITDA × debt_to_ebitda, fees off EV and debt;
total sources equal total uses. -/
theorem claim_C3_sources_equal_uses (ci : CapitalStructureInputs)
    (h1 : 0 < ci.entry_ebitda) (h2 : 1 ≤ ci.entry_multiple)
    (h3 : 0 ≤ ci.debt_to_ebitda) (h4 : 0 ≤ ci.transaction_fee_pct)
    (h5 : 0 ≤ ci.financing_fee_pct) (h6 : 0 ≤ ci.cash_on_bs) :
    (CapitalStructure.calculate ci).debt + (CapitalStructure.calculate ci).equity +
        (CapitalStructure.calculate ci).cash_on_bs =
      (CapitalStructure.calculate ci).enterprise_value +
        (CapitalStructure.calculate ci).transaction_fees +
        (CapitalStructure.calculate ci).financing_fees ∧
    (CapitalStructure.calculate ci).enterprise_value =
      ci.entry_ebitda * ci.entry_multiple ∧
    (CapitalStructure.calculate ci).debt = ci.entry_ebitda * ci.debt_to_ebitda ∧
    (CapitalStructure.calculate ci).transaction_fees =
      (CapitalStructure.calculate ci).enterprise_value * ci.transaction_fee_pct ∧
    (CapitalStructure.calculate ci).financing_fees =
      (CapitalStructure.calculate ci).debt * ci.financing_fee_pct ∧
    (CapitalStructure.calculate ci).total_sources =
      (CapitalStructure.calculate ci).total_uses := by
  refine ⟨?_, rfl, rfl, rfl, rfl, ?_⟩ <;>
    simp only [CapitalStructure.calculate] <;> ring

/-- Witness for C3 at the spec's concrete scenario (27 EBITDA, 10x entry,
5x leverage, 2%/3% fees, no cash). -/
theorem claim_C3_witness :
    (CapitalStructure.calculate ciBase).debt + (CapitalStructure.calculate ciBase).equity +
        (CapitalStructure.calculate ciBase).cash_on_bs =
      (CapitalStructure.calculate ciBase).enterprise_value +
        (CapitalStructure.calculate ciBase).transaction_fees +
        (CapitalStructure.calculate ciBase).financing_fees ∧
    (CapitalStructure.calculate ciBase).enterprise_value =
      ciBase.entry_ebitda * ciBase.entry_multiple ∧
    (CapitalStructure.calculate ciBase).debt =
      ciBase.entry_ebitda * ciBase.debt_to_ebitda ∧
    (CapitalStructure.calculate ciBase).transaction_fees =
      (CapitalStructure.calculate ciBase).enterprise_value * ciBase.transaction_fee_pct ∧
    (CapitalStructure.calculate ciBase).financing_fees =
      (CapitalStructure.calculate ciBase).debt * ciBase.financing_fee_pct ∧
    (CapitalStructure.calculate ciBase).total_sources =
      (CapitalStructure.calculate ciBase).total_uses :=
  claim_C3_sources_equal_uses ciBase (by norm_num [ciBase]) (by norm_num [ciBase])
    (by norm_num [ciBase]) (by norm_num [ciBase]) (by norm_num [ciBase])
    (by norm_num [ciBase])

/-- Claim C7: in `growth_adjusted` mode the resolved exit multiple equals
`max(5.0, entry_multiple + (revenue_cagr × 100 − 5.0) × growth_multiple_factor)`
and is never below 5.0. -/
theorem claim_C7_growth_adjusted_floor (ea : ExitAssumptions)
    (h : ea.exit_mode = ExitMode.growth_adjusted) :
    ExitModel.calculate_exit_multiple ea =
      max 5 ((ea.entry_multiple : ℝ) +
        (ea.revenue_cagr * 100 - 5) * (ea.growth_multiple_factor : ℝ)) ∧
    (5 : ℝ) ≤ ExitModel.calculate_exit_multiple ea := by
  rw [ExitModel.calculate_exit_multiple, h]
  exact ⟨rfl, le_max_left _ _⟩

/-- Exit assumptions with a sharply negative CAGR, exercising the 5.0 floor. -/
noncomputable def eaShrink : ExitAssumptions :=
  { exit_mode := ExitMode.growth_adjusted, fixed_exit_multiple := 10
    entry_multiple := 10, industry_multiple := 10, hold_period := 5
    revenue_cagr := -1, growth_multiple_factor := 1/2 }

/-- Witness for C7: for a CAGR of −100% the adjustment is −52.5x and the
multiple resolves to the 5.0 floor. -/
theorem claim_C7_witness :
    ExitModel.calculate_exit_multiple eaShrink =
      max 5 ((eaShrink.entry_multiple : ℝ) +
        (eaShrink.revenue_cagr * 100 - 5) * (eaShrink.growth_multiple_factor : ℝ)) ∧
    (5 : ℝ) ≤ ExitModel.calculate_exit_multiple eaShrink :=
  claim_C7_growth_adjusted_floor eaShrink rfl

/-- Claim C8: in `mean_reversion` mode the resolved exit multiple equals the
industry target multiple exactly; `entry_multiple` and `hold_period` do not
affect the result (the interpolation fraction is hardcoded to 1.0). -/
theorem claim_C8_mean_reversion_full (ea : ExitAssumptions)
    (h : ea.exit_mode = ExitMode.mean_reversion) :
    ExitModel.calculate_exit_multiple ea = (ea.industry_multiple : ℝ) := by
  rw [ExitModel.calculate_exit_multiple, h]
  ring

/-- Mean-reversion exit assumptions with distinct entry (7x) and industry (9x)
multiples. -/
noncomputable def eaRevert : ExitAssumptions :=
  { exit_mode := ExitMode.mean_reversion, fixed_exit_multiple := 10
    entry_multiple := 7, industry_multiple := 9, hold_period := 3
    revenue_cagr := 0, growth_multiple_factor := 1/2 }

/-- Witness for C8: entry 7x, industry 9x, hold 3 → exit multiple 9x. -/
theorem claim_C8_witness : ExitModel.calculate_exit_multiple eaRevert = 9 := by
  rw [claim_C8_mean_reversion_full eaRevert rfl]
  norm_num [eaRevert]

/-! ## Structure of the debt-schedule loop -/

theorem buildRows_length (da : DebtAssumptions) (amt : ℚ) :
    ∀ (fcf : List ℚ) (bal : ℚ) (yr : ℕ),
      (buildRows da amt fcf bal yr).length = fcf.length
  | [], _, _ => rfl
  | _ :: rest, bal, yr => by
    simp [buildRows, buildRows_length da amt rest]

/-- Every row of the schedule is the loop body applied to its own beginning
balance and that year's FCF. -/
theorem buildRows_getD_step (da : DebtAssumptions) (amt : ℚ) :
    ∀ (fcf : List ℚ) (bal : ℚ) (yr i : ℕ),
      i < (buildRows da amt fcf bal yr).length →
      (buildRows da amt fcf bal yr).getD i dfltDebtRow =
        debtStep da amt (fcf.getD i 0)
          (((buildRows da amt fcf bal yr).getD i dfltDebtRow).beginning_debt)
          (yr + i)
  | [], _, _, i, h => by simp [buildRows] at h
  | f :: rest, bal, yr, 0, h => by
    simp [buildRows, debtStep]
  | f :: rest, bal, yr, i + 1, h => by
    have h' : i < (buildRows da amt rest
        (debtStep da amt f bal yr).ending_debt (yr + 1)).length := by
      simpa [buildRows] using h
    have := buildRows_getD_step da amt rest
      (debtStep da amt f bal yr).ending_debt (yr + 1) i h'
    simpa [buildRows, Nat.add_assoc, Nat.add_comm 1 i] using this

/-- Each row's beginning balance is the initial balance for row 0 and the
previous row's ending balance afterwards. -/
theorem buildRows_getD_chain (da : DebtAssumptions) (amt : ℚ) :
    ∀ (fcf : List ℚ) (bal : ℚ) (yr i : ℕ),
      i < (buildRows da amt fcf bal yr).length →
      (((buildRows da amt fcf bal yr).getD i dfltDebtRow).beginning_debt =
        if i = 0 then bal
        else ((buildRows da amt fcf bal yr).getD (i - 1) dfltDebtRow).ending_debt)
  | [], _, _, i, h => by simp [buildRows] at h
  | f :: rest, bal, yr, 0, h => by simp [buildRows, debtStep]
  | f :: rest, bal, yr, i + 1, h => by
    have h' : i < (buildRows da amt rest
        (debtStep da amt f bal yr).ending_debt (yr + 1)).length := by
      simpa [buildRows] using h
    have ih := buildRows_getD_chain da amt rest
      (debtStep da amt f bal yr).ending_debt (yr + 1) i h'
    rcases Nat.eq_zero_or_pos i with hi | hi
    · subst hi
      simpa [buildRows] using ih
    · obtain ⟨j, rfl⟩ : ∃ j, i = j + 1 := ⟨i - 1, (Nat.succ_pred_eq_of_pos hi).symm⟩
      simpa [buildRows] using ih

end LBO

namespace LBO

/-- Claim C1: the debt schedule built by `DebtModel._build_schedule` computes,
for each year (0-indexed here by `i`), in this exact order: beginning balance
equal to the prior year's ending balance (the initial debt for the first
year); interest = beginning × interest_rate; scheduled amortization =
min(initial_debt × amortization_pct, beginning); cash sweep = 0 unless the
sweep is enabled and fcf > 0, in which case it is
min(max(0, (fcf − interest) × cash_sweep_pct), beginning − scheduled amort);
and ending = max(0, beginning − scheduled amort − cash sweep). -/
theorem claim_C1_debt_schedule_recurrence (da : DebtAssumptions)
    (fcf : List ℚ) (i : ℕ)
    (h : i < (DebtModel.build_schedule da fcf).length) :
    ((DebtModel.build_schedule da fcf).getD i dfltDebtRow).beginning_debt =
      (if i = 0 then da.initial_debt
       else ((DebtModel.build_schedule da fcf).getD (i - 1) dfltDebtRow).ending_debt) ∧
    ((DebtModel.build_schedule da fcf).getD i dfltDebtRow).interest =
      ((DebtModel.build_schedule da fcf).getD i dfltDebtRow).beginning_debt *
        da.interest_rate ∧
    ((DebtModel.build_schedule da fcf).getD i dfltDebtRow).scheduled_amort =
      min (da.initial_debt * da.amortization_pct)
        ((DebtModel.build_schedule da fcf).getD i dfltDebtRow).beginning_debt ∧
    ((DebtModel.build_schedule da fcf).getD i dfltDebtRow).cash_sweep =
      (if da.cash_sweep_enabled = true ∧ 0 < fcf.getD i 0 then
        min (max 0 ((fcf.getD i 0 -
            ((DebtModel.build_schedule da fcf).getD i dfltDebtRow).interest) *
          da.cash_sweep_pct))
          (((DebtModel.build_schedule da fcf).getD i dfltDebtRow).beginning_debt -
            ((DebtModel.build_schedule da fcf).getD i dfltDebtRow).scheduled_amort)
      else 0) ∧
    ((DebtModel.build_schedule da fcf).getD i dfltDebtRow).ending_debt =
      max 0 (((DebtModel.build_schedule da fcf).getD i dfltDebtRow).beginning_debt -
        ((DebtModel.build_schedule da fcf).getD i dfltDebtRow).scheduled_amort -
        ((DebtModel.build_schedule da fcf).getD i dfltDebtRow).cash_sweep) := by
  have hchain := buildRows_getD_chain da (da.initial_debt * da.amortization_pct)
    fcf da.initial_debt 1 i h
  have hstep := buildRows_getD_step da (da.initial_debt * da.amortization_pct)
    fcf da.initial_debt 1 i h
  simp only [DebtModel.build_schedule]
  refine ⟨hchain, ?_, ?_, ?_, ?_⟩
  · rw [hstep]; simp [debtStep]
  · rw [hstep]; simp [debtStep]
  · rw [hstep]; simp [debtStep]
  · rw [hstep]; simp [debtStep, sub_sub]

/-- Debt assumptions of the spec's base scenario: 135 initial debt, 6% rate,
5% scheduled amortization, sweep enabled at 50% of post-interest FCF. -/
def daBase : DebtAssumptions :=
  { initial_debt := 135, interest_rate := 6/100, amortization_pct := 5/100
    cash_sweep_enabled := true, cash_sweep_pct := 1/2 }

/-- A two-year FCF series of 20 per year. -/
def fcfBase : List ℚ := [20, 20]

/-- Witness for C1 at year index 1 of the base debt schedule (exercising the
prior-year-ending case and the enabled sweep). -/
theorem claim_C1_witness :
    ((DebtModel.build_schedule daBase fcfBase).getD 1 dfltDebtRow).beginning_debt =
      (if 1 = 0 then daBase.initial_debt
       else ((DebtModel.build_schedule daBase fcfBase).getD (1 - 1) dfltDebtRow).ending_debt) ∧
    ((DebtModel.build_schedule daBase fcfBase).getD 1 dfltDebtRow).interest =
      ((DebtModel.build_schedule daBase fcfBase).getD 1 dfltDebtRow).beginning_debt *
        daBase.interest_rate ∧
    ((DebtModel.build_schedule daBase fcfBase).getD 1 dfltDebtRow).scheduled_amort =
      min (daBase.initial_debt * daBase.amortization_pct)
        ((DebtModel.build_schedule daBase fcfBase).getD 1 dfltDebtRow).beginning_debt ∧
    ((DebtModel.build_schedule daBase fcfBase).getD 1 dfltDebtRow).cash_sweep =
      (if daBase.cash_sweep_enabled = true ∧ 0 < fcfBase.getD 1 0 then
        min (max 0 ((fcfBase.getD 1 0 -
            ((DebtModel.build_schedule daBase fcfBase).getD 1 dfltDebtRow).interest) *
          daBase.cash_sweep_pct))
          (((DebtModel.build_schedule daBase fcfBase).getD 1 dfltDebtRow).beginning_debt -
            ((DebtModel.build_schedule daBase fcfBase).getD 1 dfltDebtRow).scheduled_amort)
      else 0) ∧
    ((DebtModel.build_schedule daBase fcfBase).getD 1 dfltDebtRow).ending_debt =
      max 0 (((DebtModel.build_schedule daBase fcfBase).getD 1 dfltDebtRow).beginning_debt -
        ((DebtModel.build_schedule daBase fcfBase).getD 1 dfltDebtRow).scheduled_amort -
        ((DebtModel.build_schedule daBase fcfBase).getD 1 dfltDebtRow).cash_sweep) :=
  claim_C1_debt_schedule_recurrence daBase fcfBase 1 (by decide)

/-! ## Debt-schedule invariants -/

theorem debtStep_cash_sweep_eq (da : DebtAssumptions) (amt f bal : ℚ) (yr : ℕ) :
    (debtStep da amt f bal yr).cash_sweep =
      if da.cash_sweep_enabled = true ∧ 0 < f then
        min (max 0 ((f - bal * da.interest_rate) * da.cash_sweep_pct))
          (bal - min amt bal)
      else 0 := by
  simp [debtStep]

theorem debtStep_beginning_eq (da : DebtAssumptions) (amt f bal : ℚ) (yr : ℕ) :
    (debtStep da amt f bal yr).beginning_debt = bal := by
  simp [debtStep]

theorem debtStep_scheduled_eq (da : DebtAssumptions) (amt f bal : ℚ) (yr : ℕ) :
    (debtStep da amt f bal yr).scheduled_amort = min amt bal := by
  simp [debtStep]

theorem debtStep_ending_eq (da : DebtAssumptions) (amt f bal : ℚ) (yr : ℕ) :
    (debtStep da amt f bal yr).ending_debt =
      max 0 (bal - (min amt bal + (debtStep da amt f bal yr).cash_sweep)) := by
  simp [debtStep]

/-- One loop iteration keeps the schedule invariants: the ending balance drops
but stays non-negative, and total paydown never exceeds the beginning
balance. -/
theorem debtStep_invariant (da : DebtAssumptions) (amt f bal : ℚ) (yr : ℕ)
    (hamt : 0 ≤ amt) (hbal : 0 ≤ bal) :
    (debtStep da amt f bal yr).ending_debt ≤ (debtStep da amt f bal yr).beginning_debt ∧
    0 ≤ (debtStep da amt f bal yr).ending_debt ∧
    (debtStep da amt f bal yr).scheduled_amort + (debtStep da amt f bal yr).cash_sweep ≤
      (debtStep da amt f bal yr).beginning_debt := by
  have hsn : 0 ≤ min amt bal := le_min hamt hbal
  have hsl : min amt bal ≤ bal := min_le_right _ _
  have hsw0 : 0 ≤ (debtStep da amt f bal yr).cash_sweep := by
    rw [debtStep_cash_sweep_eq]
    split_ifs with hc
    · exact le_min (le_max_left _ _) (by linarith)
    · exact le_refl _
  have hswle : (debtStep da amt f bal yr).cash_sweep ≤ bal - min amt bal := by
    rw [debtStep_cash_sweep_eq]
    split_ifs with hc
    · exact min_le_right _ _
    · linarith
  refine ⟨?_, ?_, ?_⟩
  · rw [debtStep_ending_eq, debtStep_beginning_eq]
    exact max_le hbal (by linarith)
  · rw [debtStep_ending_eq]
    exact le_max_left _ _
  · rw [debtStep_scheduled_eq, debtStep_beginning_eq]
    linarith

theorem buildRows_invariant (da : DebtAssumptions) (amt : ℚ) (hamt : 0 ≤ amt) :
    ∀ (fcf : List ℚ) (bal : ℚ) (yr : ℕ), 0 ≤ bal →
      ∀ r ∈ buildRows da amt fcf bal yr,
        r.ending_debt ≤ r.beginning_debt ∧ 0 ≤ r.ending_debt ∧
        r.scheduled_amort + r.cash_sweep ≤ r.beginning_debt
  | [], bal, yr => by
    intro _ r hr
    simp [buildRows] at hr
  | f :: rest, bal, yr => by
    intro hbal r hr
    simp only [buildRows, List.mem_cons] at hr
    rcases hr with rfl | hr
    · exact debtStep_invariant da amt f bal yr hamt hbal
    · exact buildRows_invariant da amt hamt rest _ (yr + 1)
        (debtStep_invariant da amt f bal yr hamt hbal).2.1 r hr

end LBO

namespace LBO

/-- Claim C2: with non-negative initial debt, amortization rate and sweep
rate, every year of the debt schedule satisfies ending ≤ beginning,
ending ≥ 0, and scheduled amort + cash sweep ≤ beginning, even when the
scheduled amortization plus sweep would mathematically overpay. -/
theorem claim_C2_debt_monotone_floor (da : DebtAssumptions) (fcf : List ℚ)
    (h1 : 0 ≤ da.initial_debt) (h2 : 0 ≤ da.amortization_pct)
    (h3 : 0 ≤ da.cash_sweep_pct) (r : DebtRow)
    (hr : r ∈ DebtModel.build_schedule da fcf) :
    r.ending_debt ≤ r.beginning_debt ∧ 0 ≤ r.ending_debt ∧
    r.scheduled_amort + r.cash_sweep ≤ r.beginning_debt :=
  buildRows_invariant da _ (mul_nonneg h1 h2) fcf da.initial_debt 1 h1 r hr

/-- Debt assumptions that overpay: 50% scheduled amortization and a 100%
sweep wipe the whole balance out in year one. -/
def daOverpay : DebtAssumptions :=
  { initial_debt := 100, interest_rate := 0, amortization_pct := 1/2
    cash_sweep_enabled := true, cash_sweep_pct := 1 }

/-- Three years of FCF of 200, far exceeding the remaining balance. -/
def fcfOverpay : List ℚ := [200, 200, 200]

/-- Witness for C2 at the first year of the overpaying schedule: the sweep is
capped so the year pays down exactly to zero instead of going negative. -/
theorem claim_C2_witness :
    (⟨1, 100, 0, 50, 50, 100, 0⟩ : DebtRow).ending_debt ≤
      (⟨1, 100, 0, 50, 50, 100, 0⟩ : DebtRow).beginning_debt ∧
    (0 : ℚ) ≤ (⟨1, 100, 0, 50, 50, 100, 0⟩ : DebtRow).ending_debt ∧
    (⟨1, 100, 0, 50, 50, 100, 0⟩ : DebtRow).scheduled_amort +
        (⟨1, 100, 0, 50, 50, 100, 0⟩ : DebtRow).cash_sweep ≤
      (⟨1, 100, 0, 50, 50, 100, 0⟩ : DebtRow).beginning_debt :=
  claim_C2_debt_monotone_floor daOverpay fcfOverpay (by norm_num [daOverpay])
    (by norm_num [daOverpay]) (by norm_num [daOverpay]) _
    (by norm_num [DebtModel.build_schedule, buildRows, debtStep, daOverpay,
      fcfOverpay, min_def, max_def])

/-- Default row used with `List.getD` when indexing leverage tables. -/
def dfltLevRow : LeverageRow := ⟨0, 0, 0, 0, 0⟩

/-- Claim C4: for a debt schedule and an EBITDA series of matching length,
`get_leverage_ratios` reports, per year, debt-to-EBITDA computed from the
beginning-of-year debt (not ending debt), and interest coverage
EBITDA ÷ interest, except that an exactly-zero interest is replaced by the
divisor 1.0, so that coverage then equals EBITDA itself. -/
theorem claim_C4_leverage_ratios (da : DebtAssumptions) (fcf es : List ℚ)
    (hlen : es.length = (DebtModel.build_schedule da fcf).length)
    (i : ℕ) (h : i < (DebtModel.get_leverage_ratios da fcf es).length) :
    ((DebtModel.get_leverage_ratios da fcf es).getD i dfltLevRow).beginning_debt =
      ((DebtModel.build_schedule da fcf).getD i dfltDebtRow).beginning_debt ∧
    ((DebtModel.get_leverage_ratios da fcf es).getD i dfltLevRow).ebitda =
      es.getD i 0 ∧
    ((DebtModel.get_leverage_ratios da fcf es).getD i dfltLevRow).debt_to_ebitda =
      ((DebtModel.build_schedule da fcf).getD i dfltDebtRow).beginning_debt /
        es.getD i 0 ∧
    ((DebtModel.get_leverage_ratios da fcf es).getD i dfltLevRow).interest_coverage =
      (if ((DebtModel.build_schedule da fcf).getD i dfltDebtRow).interest = 0
       then es.getD i 0
       else es.getD i 0 /
         ((DebtModel.build_schedule da fcf).getD i dfltDebtRow).interest) := by
  have hlev : (DebtModel.get_leverage_ratios da fcf es).length =
      min (DebtModel.build_schedule da fcf).length es.length := by
    simp [DebtModel.get_leverage_ratios]
  have hi1 : i < (DebtModel.build_schedule da fcf).length := by
    rw [hlev] at h
    exact lt_of_lt_of_le h (min_le_left _ _)
  have hi2 : i < es.length := by
    rw [hlev] at h
    exact lt_of_lt_of_le h (min_le_right _ _)
  have hzip : i < ((DebtModel.build_schedule da fcf).zip es).length := by
    simpa [List.length_zip] using lt_min hi1 hi2
  rw [List.getD_eq_getElem _ _ h, List.getD_eq_getElem _ _ hi1,
    List.getD_eq_getElem _ _ hi2]
  simp only [DebtModel.get_leverage_ratios, List.getElem_map, List.getElem_zip]
  refine ⟨by trivial, by trivial, by trivial, ?_⟩
  split_ifs with hz <;> simp [hz]

/-- Debt assumptions with a zero interest rate (so interest is exactly zero
every year). -/
def daZeroRate : DebtAssumptions :=
  { initial_debt := 100, interest_rate := 0, amortization_pct := 1/10
    cash_sweep_enabled := false, cash_sweep_pct := 0 }

/-- A two-year FCF series for the zero-rate scenario. -/
def fcfZeroRate : List ℚ := [10, 10]

/-- A two-year EBITDA series for the zero-rate scenario. -/
def esZeroRate : List ℚ := [50, 60]

/-- Witness for C4 at year index 0 of the zero-rate scenario: interest is
exactly zero, so coverage falls back to EBITDA itself, and debt-to-EBITDA
uses the beginning balance. -/
theorem claim_C4_witness :
    ((DebtModel.get_leverage_ratios daZeroRate fcfZeroRate esZeroRate).getD 0
        dfltLevRow).beginning_debt =
      ((DebtModel.build_schedule daZeroRate fcfZeroRate).getD 0
        dfltDebtRow).beginning_debt ∧
    ((DebtModel.get_leverage_ratios daZeroRate fcfZeroRate esZeroRate).getD 0
        dfltLevRow).ebitda = esZeroRate.getD 0 0 ∧
    ((DebtModel.get_leverage_ratios daZeroRate fcfZeroRate esZeroRate).getD 0
        dfltLevRow).debt_to_ebitda =
      ((DebtModel.build_schedule daZeroRate fcfZeroRate).getD 0
          dfltDebtRow).beginning_debt / esZeroRate.getD 0 0 ∧
    ((DebtModel.get_leverage_ratios daZeroRate fcfZeroRate esZeroRate).getD 0
        dfltLevRow).interest_coverage =
      (if ((DebtModel.build_schedule daZeroRate fcfZeroRate).getD 0
          dfltDebtRow).interest = 0
       then esZeroRate.getD 0 0
       else esZeroRate.getD 0 0 /
         ((DebtModel.build_schedule daZeroRate fcfZeroRate).getD 0
           dfltDebtRow).interest) :=
  claim_C4_leverage_ratios daZeroRate fcfZeroRate esZeroRate
    (by norm_num [DebtModel.build_schedule, buildRows, debtStep, daZeroRate,
      fcfZeroRate, esZeroRate])
    0
    (by norm_num [DebtModel.get_leverage_ratios, DebtModel.build_schedule,
      buildRows, debtStep, daZeroRate, fcfZeroRate, esZeroRate])

/-! ## Engine lemmas -/

theorem run_debt_assumptions (ci : CapitalStructureInputs)
    (oa : OperatingAssumptions) (da : DebtAssumptions) (ea : ExitAssumptions) :
    (LBOEngine.run ci oa da ea).debt_assumptions =
      { da with initial_debt := (CapitalStructure.calculate ci).debt } := rfl

theorem run_exit_assumptions (ci : CapitalStructureInputs)
    (oa : OperatingAssumptions) (da : DebtAssumptions) (ea : ExitAssumptions) :
    (LBOEngine.run ci oa da ea).exit_assumptions =
      { ea with revenue_cagr := OperatingModel.metrics_revenue_cagr oa } := rfl

theorem run_equity_invested (ci : CapitalStructureInputs)
    (oa : OperatingAssumptions) (da : DebtAssumptions) (ea : ExitAssumptions) :
    (LBOEngine.run ci oa da ea).equity_invested =
      (CapitalStructure.calculate ci).equity := rfl

theorem run_moic_eq (ci : CapitalStructureInputs) (oa : OperatingAssumptions)
    (da : DebtAssumptions) (ea : ExitAssumptions) :
    (LBOEngine.run ci oa da ea).moic =
      if 0 < (CapitalStructure.calculate ci).equity then
        (LBOEngine.run ci oa da ea).exit_equity_value /
          ((CapitalStructure.calculate ci).equity : ℝ)
      else 0 := rfl

/-- The engine overwrites `initial_debt` before the debt model runs, so the
caller-supplied value is irrelevant to the run's result. -/
theorem run_initial_debt_irrel (ci : CapitalStructureInputs)
    (oa : OperatingAssumptions) (da : DebtAssumptions) (x : ℚ)
    (ea : ExitAssumptions) :
    LBOEngine.run ci oa { da with initial_debt := x } ea =
      LBOEngine.run ci oa da ea := by
  cases da
  rfl

end LBO

namespace LBO

/-- Claim C5 (amended): MOIC equals exit equity over invested equity when the
invested equity is strictly positive; when it is not, the engine reports the
number 0 as a sentinel, not a missing value. -/
theorem claim_C5_moic_sentinel (ci : CapitalStructureInputs)
    (oa : OperatingAssumptions) (da : DebtAssumptions) (ea : ExitAssumptions) :
    (LBOEngine.run ci oa da ea).moic =
      if 0 < (CapitalStructure.calculate ci).equity then
        (LBOEngine.run ci oa da ea).exit_equity_value /
          ((CapitalStructure.calculate ci).equity : ℝ)
      else 0 :=
  run_moic_eq ci oa da ea

/-- A capital structure whose equity check is negative: EV 100 at 1.0x on
EBITDA 100 with 10.0x of leverage and no fees. -/
def ciUnder : CapitalStructureInputs :=
  { entry_ebitda := 100, entry_multiple := 1, debt_to_ebitda := 10
    transaction_fee_pct := 0, financing_fee_pct := 0, cash_on_bs := 0 }

/-- A flat one-year operating plan: revenue 100, 20% margin, 25% tax. -/
def oaFlat : OperatingAssumptions :=
  { base_revenue := 100, revenue_growth_rates := [0], ebitda_margin := 1/5
    tax_rate := 1/4, da_pct_revenue := 0, capex_pct_revenue := 0
    nwc_pct_revenue := 0 }

/-- Pass-through debt assumptions (no rate, no amortization, no sweep). -/
def daPlain : DebtAssumptions :=
  { initial_debt := 0, interest_rate := 0, amortization_pct := 0
    cash_sweep_enabled := false, cash_sweep_pct := 0 }

/-- Fixed-mode exit assumptions at a 10.0x multiple. -/
def eaFixed10 : ExitAssumptions :=
  { exit_mode := ExitMode.fixed, fixed_exit_multiple := 10
    entry_multiple := 10, industry_multiple := 10, hold_period := 5
    revenue_cagr := 0, growth_multiple_factor := 1/2 }

/-- Counterexample to claim C5 as stated: with a negative equity check
(equity invested = −900) the engine reports MOIC as the number 0, while the
spec's policy (`moicSpec`) would report an explicit missing value. -/
theorem claim_C5_counterexample :
    (LBOEngine.run ciUnder oaFlat daPlain eaFixed10).equity_invested = -900 ∧
    (LBOEngine.run ciUnder oaFlat daPlain eaFixed10).moic = 0 ∧
    moicSpec (LBOEngine.run ciUnder oaFlat daPlain eaFixed10).exit_equity_value
      (LBOEngine.run ciUnder oaFlat daPlain eaFixed10).equity_invested = none := by
  have he : (LBOEngine.run ciUnder oaFlat daPlain eaFixed10).equity_invested = -900 := by
    rw [run_equity_invested]
    norm_num [CapitalStructure.calculate, ciUnder]
  refine ⟨he, ?_, ?_⟩
  · rw [run_moic_eq, if_neg]
    norm_num [CapitalStructure.calculate, ciUnder]
  · rw [moicSpec, he, if_neg]
    norm_num

/-- A one-year projection: one period, below the two the CAGR metric needs. -/
def oaOnePeriod : OperatingAssumptions :=
  { base_revenue := 145, revenue_growth_rates := [1/20], ebitda_margin := 1/5
    tax_rate := 1/4, da_pct_revenue := 0, capex_pct_revenue := 0
    nwc_pct_revenue := 0 }

/-- Claim C6 (code bug): for a one-period projection — fewer than the two
periods for which a CAGR is defined — `get_metrics_summary` silently returns
the number 0 for `revenue_cagr` instead of signalling an undefined result:
the source computes `(end/start) ** (1/len) - 1` with no guard on the start
value or the period count. -/
theorem claim_C6_cagr_unguarded :
    (OperatingModel.build_projection oaOnePeriod).length = 1 ∧
    OperatingModel.metrics_revenue_cagr oaOnePeriod = 0 := by
  constructor
  · rfl
  · rw [OperatingModel.metrics_revenue_cagr, revenueCagr]
    norm_num [OperatingModel.build_projection, projectRows, oaOnePeriod]

/-- Claim C10 (amended): a run returns the capital and operating inputs
untouched, but mutates the two records the source assigns to: after the run,
`debt_assumptions` is the input record with `initial_debt` overwritten by the
capital structure's debt, and `exit_assumptions` is the input record with
`revenue_cagr` overwritten by the operating model's CAGR metric. -/
theorem claim_C10_mutation (ci : CapitalStructureInputs)
    (oa : OperatingAssumptions) (da : DebtAssumptions) (ea : ExitAssumptions) :
    (LBOEngine.run ci oa da ea).debt_assumptions =
      { da with initial_debt := (CapitalStructure.calculate ci).debt } ∧
    (LBOEngine.run ci oa da ea).exit_assumptions =
      { ea with revenue_cagr := OperatingModel.metrics_revenue_cagr oa } :=
  ⟨run_debt_assumptions ci oa da ea, run_exit_assumptions ci oa da ea⟩

/-- Counterexample to claim C10 as stated: a run with the base capital inputs
changes the caller-supplied debt assumptions — `initial_debt` is 0 before the
run and 135 (the capital structure's debt) after. -/
theorem claim_C10_counterexample :
    (LBOEngine.run ciBase oaFlat daPlain eaFixed10).debt_assumptions ≠ daPlain ∧
    (LBOEngine.run ciBase oaFlat daPlain eaFixed10).debt_assumptions.initial_debt = 135 ∧
    daPlain.initial_debt = 0 := by
  refine ⟨?_, ?_, rfl⟩
  · rw [run_debt_assumptions]
    simp only [daPlain, ne_eq, DebtAssumptions.mk.injEq, not_and]
    intro hd
    exfalso
    rw [CapitalStructure.calculate] at hd
    norm_num [ciBase] at hd
  · rw [run_debt_assumptions]
    norm_num [CapitalStructure.calculate, ciBase]

/-! ## Sensitivity-grid lemmas -/

/-- In a fixed-mode grid cell the exit equity is final EBITDA times the
cell's multiple minus final debt (the CAGR overwrite does not change the
fixed mode). -/
theorem run_exit_equity_fixed (ci : CapitalStructureInputs)
    (oa : OperatingAssumptions) (da : DebtAssumptions) (ea : ExitAssumptions)
    (m : ℚ) :
    (LBOEngine.run ci oa da (gridExit ea m)).exit_equity_value =
      (OperatingModel.get_final_ebitda oa : ℝ) * (m : ℝ) -
        (DebtModel.get_final_debt
          { da with initial_debt := (CapitalStructure.calculate ci).debt }
          (OperatingModel.get_fcf_series oa) : ℝ) := by
  simp [LBOEngine.run, ExitModel.calculate_exit_value,
    ExitModel.calculate_exit_multiple, gridExit]

/-- With a non-negative final EBITDA, the MOIC of a fixed-mode grid cell is
non-decreasing in the cell's exit multiple. -/
theorem run_moic_fixed_mono (ci : CapitalStructureInputs)
    (oa : OperatingAssumptions) (da : DebtAssumptions) (ea : ExitAssumptions)
    (hfeb : 0 ≤ OperatingModel.get_final_ebitda oa) (m1 m2 : ℚ) (hm : m1 ≤ m2) :
    (LBOEngine.run ci oa da (gridExit ea m1)).moic ≤
      (LBOEngine.run ci oa da (gridExit ea m2)).moic := by
  rw [run_moic_eq, run_moic_eq, run_exit_equity_fixed, run_exit_equity_fixed]
  split_ifs with hpos
  · have hc : (0 : ℝ) < ((CapitalStructure.calculate ci).equity : ℝ) := by
      exact_mod_cast hpos
    have hmm : (OperatingModel.get_final_ebitda oa : ℝ) * (m1 : ℝ) ≤
        (OperatingModel.get_final_ebitda oa : ℝ) * (m2 : ℝ) := by
      have h1 : (0 : ℝ) ≤ (OperatingModel.get_final_ebitda oa : ℝ) := by
        exact_mod_cast hfeb
      have h2 : (m1 : ℝ) ≤ (m2 : ℝ) := by exact_mod_cast hm
      exact mul_le_mul_of_nonneg_left h2 h1
    exact (div_le_div_iff_of_pos_right hc).mpr (by linarith)
  · exact le_refl _

/-- The cells of the grid loop are exactly the per-pair engine results, with
the threaded debt-assumption state irrelevant (the engine overwrites
`initial_debt` before using it). -/
theorem gridLoop_cells (ci : CapitalStructureInputs) (oa : OperatingAssumptions)
    (ea : ExitAssumptions) :
    ∀ (pairs : List (ℚ × ℚ)) (da : DebtAssumptions),
      gridLoop ci oa ea pairs da = pairs.map fun p =>
        { growth_rate := p.1, exit_multiple := p.2,
          moic := (LBOEngine.run ci (gridOperating oa p.1) da
            (gridExit ea p.2)).moic }
  | [], da => rfl
  | (g, m) :: rest, da => by
    simp only [gridLoop, List.map_cons]
    refine congrArg _ ?_
    rw [run_debt_assumptions, gridLoop_cells ci oa ea rest]
    refine List.map_congr_left fun p hp => ?_
    rw [run_initial_debt_irrel]

end LBO

namespace LBO

/-- Claim C9 (amended): over growth rates [0, 0.05, 0.10] and exit multiples
[8, 10, 12], the grid's cells are exactly the per-scenario engine results in
row-major order, and within each fixed-growth row whose projected exit-year
EBITDA is non-negative, MOIC is monotonically non-decreasing in the exit
multiple.  (When the exit-year EBITDA is negative the ordering reverses; see
the counterexample.) -/
theorem claim_C9_moic_monotone (ci : CapitalStructureInputs)
    (oa : OperatingAssumptions) (da : DebtAssumptions) (ea : ExitAssumptions)
    (H : ∀ g ∈ ([0, 1/20, 1/10] : List ℚ),
      0 ≤ OperatingModel.get_final_ebitda (gridOperating oa g)) :
    build_sensitivity_grid ci oa da ea [0, 1/20, 1/10] [8, 10, 12] =
      (([0, 1/20, 1/10] : List ℚ).flatMap fun g =>
        ([8, 10, 12] : List ℚ).map fun m =>
          { growth_rate := g, exit_multiple := m,
            moic := (LBOEngine.run ci (gridOperating oa g) da
              (gridExit ea m)).moic }) ∧
    ∀ g ∈ ([0, 1/20, 1/10] : List ℚ), ∀ m1 m2 : ℚ, m1 ≤ m2 →
      (LBOEngine.run ci (gridOperating oa g) da (gridExit ea m1)).moic ≤
        (LBOEngine.run ci (gridOperating oa g) da (gridExit ea m2)).moic := by
  constructor
  · rw [build_sensitivity_grid, gridLoop_cells]
    simp [List.map_map, Function.comp]
  · intro g hg m1 m2 hm
    exact run_moic_fixed_mono ci (gridOperating oa g) da ea (H g hg) m1 m2 hm

/-- Witness for C9 at the base inputs (non-negative margin): the 3×3 grid is
the row-major cell list, and in the zero-growth row the MOIC at an 8.0x exit
is at most the MOIC at a 10.0x exit. -/
theorem claim_C9_witness :
    build_sensitivity_grid ciBase oaFlat daPlain eaFixed10
        [0, 1/20, 1/10] [8, 10, 12] =
      (([0, 1/20, 1/10] : List ℚ).flatMap fun g =>
        ([8, 10, 12] : List ℚ).map fun m =>
          { growth_rate := g, exit_multiple := m,
            moic := (LBOEngine.run ciBase (gridOperating oaFlat g) daPlain
              (gridExit eaFixed10 m)).moic }) ∧
    (LBOEngine.run ciBase (gridOperating oaFlat 0) daPlain
        (gridExit eaFixed10 8)).moic ≤
      (LBOEngine.run ciBase (gridOperating oaFlat 0) daPlain
        (gridExit eaFixed10 10)).moic := by
  have H : ∀ g ∈ ([0, 1/20, 1/10] : List ℚ),
      0 ≤ OperatingModel.get_final_ebitda (gridOperating oaFlat g) := by
    intro g hg
    fin_cases hg <;>
      norm_num [OperatingModel.get_final_ebitda, OperatingModel.build_projection,
        projectRows, gridOperating, oaFlat, List.replicate]
  exact ⟨(claim_C9_moic_monotone ciBase oaFlat daPlain eaFixed10 H).1,
    (claim_C9_moic_monotone ciBase oaFlat daPlain eaFixed10 H).2 0 (by norm_num)
      8 10 (by norm_num)⟩

/-- A loss-making operating plan: 100 of revenue at a −20% EBITDA margin. -/
def oaLossMaking : OperatingAssumptions :=
  { base_revenue := 100, revenue_growth_rates := [0], ebitda_margin := -(1/5)
    tax_rate := 1/4, da_pct_revenue := 0, capex_pct_revenue := 0
    nwc_pct_revenue := 0 }

/-- Unlevered capital structure with a positive equity check: EV 270 on
EBITDA 27 at 10.0x, no debt, 2% transaction fee. -/
def ciNoDebt : CapitalStructureInputs :=
  { entry_ebitda := 27, entry_multiple := 10, debt_to_ebitda := 0
    transaction_fee_pct := 2/100, financing_fee_pct := 0, cash_on_bs := 0 }

/-- Counterexample to claim C9 as stated: with a loss-making plan (negative
exit-year EBITDA) the zero-growth row of the very grid the claim describes is
strictly decreasing in the exit multiple — the cell at 10.0x has a strictly
lower MOIC than the cell at 8.0x. -/
theorem claim_C9_counterexample :
    ((build_sensitivity_grid ciNoDebt oaLossMaking daPlain eaFixed10
        [0, 1/20, 1/10] [8, 10, 12]).getD 0 ⟨0, 0, 0⟩).growth_rate = 0 ∧
    ((build_sensitivity_grid ciNoDebt oaLossMaking daPlain eaFixed10
        [0, 1/20, 1/10] [8, 10, 12]).getD 1 ⟨0, 0, 0⟩).growth_rate = 0 ∧
    ((build_sensitivity_grid ciNoDebt oaLossMaking daPlain eaFixed10
        [0, 1/20, 1/10] [8, 10, 12]).getD 0 ⟨0, 0, 0⟩).exit_multiple = 8 ∧
    ((build_sensitivity_grid ciNoDebt oaLossMaking daPlain eaFixed10
        [0, 1/20, 1/10] [8, 10, 12]).getD 1 ⟨0, 0, 0⟩).exit_multiple = 10 ∧
    ((build_sensitivity_grid ciNoDebt oaLossMaking daPlain eaFixed10
        [0, 1/20, 1/10] [8, 10, 12]).getD 1 ⟨0, 0, 0⟩).moic <
      ((build_sensitivity_grid ciNoDebt oaLossMaking daPlain eaFixed10
        [0, 1/20, 1/10] [8, 10, 12]).getD 0 ⟨0, 0, 0⟩).moic := by
  rw [build_sensitivity_grid, gridLoop_cells]
  have hpos : (0 : ℚ) < (CapitalStructure.calculate ciNoDebt).equity := by
    norm_num [CapitalStructure.calculate, ciNoDebt]
  have hfeb : OperatingModel.get_final_ebitda (gridOperating oaLossMaking 0) = -20 := by
    norm_num [OperatingModel.get_final_ebitda, OperatingModel.build_projection,
      projectRows, gridOperating, oaLossMaking, List.replicate]
  have hfd : DebtModel.get_final_debt
      { daPlain with initial_debt := (CapitalStructure.calculate ciNoDebt).debt }
      (OperatingModel.get_fcf_series (gridOperating oaLossMaking 0)) = 0 := by
    norm_num [DebtModel.get_final_debt, DebtModel.build_schedule, buildRows,
      debtStep, OperatingModel.get_fcf_series, OperatingModel.build_projection,
      projectRows, gridOperating, oaLossMaking, daPlain, ciNoDebt,
      CapitalStructure.calculate, List.replicate, min_def, max_def]
  refine ⟨by norm_num, by norm_num, by norm_num, by norm_num, ?_⟩
  simp only [List.flatMap_cons, List.map_cons, List.flatMap_nil, List.map_nil,
    List.append_nil, List.cons_append, List.getD_cons_zero, List.getD_cons_succ]
  rw [run_moic_eq, run_moic_eq, run_exit_equity_fixed, run_exit_equity_fixed,
    if_pos hpos, if_pos hpos, hfeb, hfd]
  have hce : (0 : ℝ) < ((CapitalStructure.calculate ciNoDebt).equity : ℝ) := by
    exact_mod_cast hpos
  rw [div_lt_div_iff_of_pos_right hce]
  norm_num

end LBO
